import Mathlib

/-!
Verification of the Connect-4 distributed-game repository.

The repository has two Python variants of the same game:
* `src/Connect-4.py` (the richer reference variant, Portuguese identifiers):
  class `JogoConnect4` with ZooKeeper znodes `/connect4/tabuleiro`,
  `/connect4/vez`, `/connect4/vencedor`, `/connect4/motivo_vitoria`.
* `src/src/connect4.py`: class `Connect4Game` with znodes `/connect4/board`,
  `/connect4/turn`, `/connect4/winner` (no outcome-reason znode).

We embed the board, the move paths, the timer/watch handlers and the
znode-write traces of both variants, and prove or refute the spec claims.
-/

namespace Connect4

/-- The board is a 6-row by 7-column grid of optional player identities.
Rows are indexed 0 (top) .. 5 (bottom), columns 0 .. 6, exactly as the
Python nested lists `[[None]*7 for _ in range(6)]`.  We model it as a total
function; the program only ever touches indices in range. -/
def Board := Nat → Nat → Option String

/-- `json.dumps([[None]*7 for _ in range(6)])`: the empty grid. -/
def emptyBoard : Board := fun _ _ => none

/-- Write a single cell (the assignment `tabuleiro[linha][coluna] = meu_id`). -/
def place (b : Board) (r c : Nat) (p : String) : Board :=
  fun r' c' => if r' = r then (if c' = c then some p else b r' c') else b r' c'

/-- `for linha in range(5, -1, -1): if tabuleiro[linha][coluna] is None: ...`:
the first empty row scanning from the bottom (row 5) upward. -/
def lowestEmptyRow (b : Board) (c : Nat) : Option Nat :=
  if (b 5 c).isNone then some 5
  else if (b 4 c).isNone then some 4
  else if (b 3 c).isNone then some 3
  else if (b 2 c).isNone then some 2
  else if (b 1 c).isNone then some 1
  else if (b 0 c).isNone then some 0
  else none

/-- The placement step shared by both variants: the column is rejected as
full when its top cell is occupied (`tabuleiro[0][coluna] is not None`);
otherwise the piece goes to the first empty row scanning from the bottom.
Returns the new board and the row used. -/
def dropPiece (b : Board) (c : Nat) (p : String) : Option (Board × Nat) :=
  if (b 0 c).isNone then
    (lowestEmptyRow b c).map (fun r => (place b r c p, r))
  else none

/-- Apply one drop, leaving the board unchanged when the drop is rejected. -/
def applyDrop (b : Board) (m : Nat × String) : Board :=
  match dropPiece b m.1 m.2 with
  | some (b', _) => b'
  | none => b

/-- A sequence of drop attempts starting from a given board. -/
def dropSeq (b : Board) (ms : List (Nat × String)) : Board :=
  ms.foldl applyDrop b

/-- Gravity: no gap below a filled cell — a filled cell at row `r` has a
filled cell at row `r+1` (rows grow downward). -/
def gravity (b : Board) : Prop :=
  ∀ r c, r < 5 → (b r c).isSome → (b (r + 1) c).isSome

/-- `_verificar_se_ganhei` of `src/Connect-4.py`: scan all horizontal,
vertical and the two diagonal windows of length 4 for a run of `j`. -/
def verificarSeGanhei (j : String) (b : Board) : Bool :=
  ((List.range 6).any fun r => (List.range 4).any fun c =>
    (List.range 4).all fun i => b r (c + i) == some j) ||
  ((List.range 7).any fun c => (List.range 3).any fun r =>
    (List.range 4).all fun i => b (r + i) c == some j) ||
  ((List.range 3).any fun r => (List.range 4).any fun c =>
    (List.range 4).all fun i => b (r + i) (c + i) == some j) ||
  ((List.range 3).any fun r0 => (List.range 4).any fun c =>
    (List.range 4).all fun i => b (r0 + 3 - i) (c + i) == some j)

/-- `check_winner(self, row, col)` of `src/src/connect4.py`: the `row` and
`col` parameters are accepted but the body never reads them — it scans the
whole board for `player`, exactly like `_verificar_se_ganhei`. -/
def check_winner (player : String) (b : Board) (row col : Nat) : Bool :=
  let _ := row
  let _ := col
  ((List.range 6).any fun r => (List.range 4).any fun c =>
    b r c == some player && b r (c+1) == some player &&
    b r (c+2) == some player && b r (c+3) == some player) ||
  ((List.range 7).any fun c => (List.range 3).any fun r =>
    b r c == some player && b (r+1) c == some player &&
    b (r+2) c == some player && b (r+3) c == some player) ||
  ((List.range 3).any fun r => (List.range 4).any fun c =>
    b r c == some player && b (r+1) (c+1) == some player &&
    b (r+2) (c+2) == some player && b (r+3) (c+3) == some player) ||
  ((List.range 3).any fun r0 => (List.range 4).any fun c =>
    b (r0+3) c == some player && b (r0+2) (c+1) == some player &&
    b (r0+1) (c+2) == some player && b r0 (c+3) == some player)

/-- `proximo = "player2" if self.meu_id == "player1" else "player1"` —
identical in both variants. -/
def proximo (meuId : String) : String :=
  if meuId == "player1" then "player2" else "player1"

/-! ## Global match state and the move paths -/

/-- The shared znode data both variants keep under `/connect4/...`:
`tabuleiro`/`board`, `vez`/`turn`, `vencedor`/`winner` and (only in
`src/Connect-4.py`) `motivo_vitoria`.  Empty strings stand for empty
payloads (`b""`). -/
structure GState where
  tab : Board
  vez : String
  vencedor : String
  motivo : String

/-- `_fazer_minha_jogada` of `src/Connect-4.py`, from the point where a
column has been accepted by the input loop: place the piece scanning rows
5..0, save the board, then either declare the win (`motivo_vitoria :=
"vitoria"`, `vencedor := meu_id`, `vez` untouched) or hand the turn to
`proximo` (`vencedor` untouched).  There is no lock and the function never
re-reads `vez`.  A rejected column re-prompts, i.e. mutates nothing. -/
def fazerMinhaJogada (meuId : String) (col : Nat) (s : GState) : GState :=
  match dropPiece s.tab col meuId with
  | some (b', _) =>
      if verificarSeGanhei meuId b' then
        { s with tab := b', motivo := "vitoria", vencedor := meuId }
      else
        { s with tab := b', vez := proximo meuId }
  | none => s

/-- `make_move` of `src/src/connect4.py`: under `move_lock`, first re-read
`turn`; if it is not this player's id, return with nothing written.
Otherwise place, save the board, and either write `winner := player_id`
(turn untouched, and no reason znode exists in this variant) or write
`turn := next_player`. -/
def make_move (playerId : String) (col : Nat) (s : GState) : GState :=
  if s.vez ≠ playerId then s
  else
    match dropPiece s.tab col playerId with
    | some (b', r) =>
        if check_winner playerId b' r col then
          { s with tab := b', vencedor := playerId }
        else
          { s with tab := b', vez := proximo playerId }
    | none => s

/-- `_vencer_por_wo(motivo)` of `src/Connect-4.py`: read `vencedor`; only
when it is empty, write `motivo_vitoria := motivo` then `vencedor :=
meu_id` (a non-atomic check-then-set). -/
def vencerPorWo (meuId motivo : String) (s : GState) : GState :=
  if s.vencedor = "" then { s with motivo := motivo, vencedor := meuId }
  else s

/-! ## Znode-write traces

To settle the ordering claims we record, for each code path, the sequence
of `zk.set` calls it performs on the four data znodes, in program order. -/

/-- One `zk.set` call on a data znode of `src/Connect-4.py` (the
`src/src/connect4.py` variant uses the same `board`/`turn`/`winner` writes
and has no reason znode). -/
inductive ZWrite where
  | tab (b : Board)
  | vez (v : String)
  | vencedor (v : String)
  | motivo (v : String)

/-- Is this write a write of the winner znode? -/
def ZWrite.isVenc : ZWrite → Bool
  | .vencedor _ => true
  | _ => false

/-- Is this write a write of a non-empty value to the winner znode? -/
def ZWrite.isVencNE : ZWrite → Bool
  | .vencedor v => v ≠ ""
  | _ => false

/-- Is this write a write of a non-empty value to the reason znode? -/
def ZWrite.isMotivoNE : ZWrite → Bool
  | .motivo v => v ≠ ""
  | _ => false

/-- Is this write a write of the reason znode? -/
def ZWrite.isMotivo : ZWrite → Bool
  | .motivo _ => true
  | _ => false

/-- Is this write a write of the turn znode? -/
def ZWrite.isVez : ZWrite → Bool
  | .vez _ => true
  | _ => false

/-- `_limpar_para_novo_jogo` of `src/Connect-4.py`: its `zk.set` calls in
program order (`vencedor`, `vez`, `motivo_vitoria`, `tabuleiro`; the
trailing deletion of stale player entries touches no data znode). -/
def limparTrace : List ZWrite :=
  [.vencedor "", .vez "", .motivo "", .tab emptyBoard]

/-- The `zk.set` calls of `_vencer_por_wo(motivo)` in program order: when
`vencedor` is read back empty, `motivo_vitoria` then `vencedor`; otherwise
nothing. -/
def vencerPorWoTrace (meuId motivo : String) (s : GState) : List ZWrite :=
  if s.vencedor = "" then [.motivo motivo, .vencedor meuId]
  else []

/-- The `zk.set` calls of `_fazer_minha_jogada` in program order, from an
accepted column: board first, then either `motivo_vitoria`/`vencedor` or
`vez`. -/
def fazerMinhaJogadaTrace (meuId : String) (col : Nat) (s : GState) : List ZWrite :=
  match dropPiece s.tab col meuId with
  | some (b', _) =>
      if verificarSeGanhei meuId b' then
        [.tab b', .motivo "vitoria", .vencedor meuId]
      else
        [.tab b', .vez (proximo meuId)]
  | none => []

/-- The `zk.set` calls of `make_move` of `src/src/connect4.py` in program
order: nothing when the turn re-validation fails, otherwise board first,
then either `winner` (this variant writes no reason anywhere) or `turn`. -/
def make_moveTrace (playerId : String) (col : Nat) (s : GState) : List ZWrite :=
  if s.vez ≠ playerId then []
  else
    match dropPiece s.tab col playerId with
    | some (b', r) =>
        if check_winner playerId b' r col then
          [.tab b', .vencedor playerId]
        else
          [.tab b', .vez (proximo playerId)]
    | none => []

/-- `_definir_primeiro_jogador`: the elected leader's callback writes its
own identity to `vez`. -/
def definirPrimeiroJogadorTrace (meuId : String) : List ZWrite :=
  [.vez meuId]

/-- The `zk.set`-performing code paths of `src/Connect-4.py`: a trace is a
program trace when some path with some arguments emits it.  `motivo` of
`_vencer_por_wo` ranges over its two call sites (`'tempo'` at
`_observar_turno`, `'desconexao'` at `_observar_jogadores`). -/
def progTrace (t : List ZWrite) : Prop :=
  t = limparTrace ∨
  (∃ meuId motivo s, (motivo = "tempo" ∨ motivo = "desconexao") ∧
      t = vencerPorWoTrace meuId motivo s) ∨
  (∃ meuId col s, t = fazerMinhaJogadaTrace meuId col s) ∨
  (∃ meuId, t = definirPrimeiroJogadorTrace meuId)

/-! ## Watch handlers and timers of `src/Connect-4.py`

Per-participant local state: the two `threading.Event` flags, the two
`threading.Timer`s (modelled as pending-timer ids, so that
cancel-and-restart is distinguishable from no change; `none` = no pending
timer) and, as a ghost for stating invariants, the last non-empty value the
`/connect4/vez` watch delivered. -/

structure LState where
  jogoAcabou : Bool
  minhaVez : Bool
  timerTurno : Option Nat
  timerConexao : Option Nat
  lastTurn : Option String
  nextId : Nat
deriving DecidableEq

/-- The local state right after `__init__`. -/
def initL : LState :=
  { jogoAcabou := false, minhaVez := false, timerTurno := none,
    timerConexao := none, lastTurn := none, nextId := 0 }

/-- `_observar_turno(dados, stat)`: return at once when the game is over or
the payload is empty; otherwise cancel the pending turn timer, then either
raise the my-turn flag (own id) or clear it and start a fresh 30 s turn
timer (other id). -/
def observarTurno (meuId dados : String) (l : LState) : LState :=
  if l.jogoAcabou ∨ dados = "" then l
  else if dados = meuId then
    { l with timerTurno := none, minhaVez := true, lastTurn := some dados }
  else
    { l with minhaVez := false, lastTurn := some dados,
             timerTurno := some l.nextId, nextId := l.nextId + 1 }

/-- `_observar_vencedor(dados, stat)`: the first non-empty winner payload
sets the game-over flag and cancels both timers. -/
def observarVencedor (dados : String) (l : LState) : LState :=
  if dados ≠ "" ∧ ¬l.jogoAcabou then
    { l with jogoAcabou := true, timerTurno := none, timerConexao := none }
  else l

/-- `_observar_jogadores(jogadores)`: short-circuit when the game is over;
when the registry drops below 2 and no grace timer runs, cancel the turn
timer and start the 30 s disconnection-grace timer; when it is back to ≥2
with a grace timer running, cancel the grace timer. -/
def observarJogadores (n : Nat) (l : LState) : LState :=
  if l.jogoAcabou then l
  else if n < 2 ∧ l.timerConexao = none then
    { l with timerTurno := none, timerConexao := some l.nextId,
             nextId := l.nextId + 1 }
  else if 2 ≤ n ∧ l.timerConexao ≠ none then
    { l with timerConexao := none }
  else l

/-- The events one participant's process can observe: the three watches
delivering payloads, and the expiry of a pending timer.  `threading.Timer`
guarantees a cancelled timer never fires, so expiry of a cancelled timer is
not an event. -/
inductive Event where
  | turno (dados : String)
  | vencedorObs (dados : String)
  | jogadores (n : Nat)
  | expiraTurno
  | expiraConexao
deriving DecidableEq

/-- One observed event applied to the local state and the shared znodes.
Timer expiry runs `_vencer_por_wo` with the reason bound at `start`
(`'tempo'` for the turn timer, `'desconexao'` for the grace timer). -/
def stepEvent (meuId : String) (s : LState × GState) (e : Event) :
    LState × GState :=
  match e with
  | .turno d => (observarTurno meuId d s.1, s.2)
  | .vencedorObs d => (observarVencedor d s.1, s.2)
  | .jogadores n => (observarJogadores n s.1, s.2)
  | .expiraTurno =>
      if s.1.timerTurno.isSome then
        ({ s.1 with timerTurno := none }, vencerPorWo meuId "tempo" s.2)
      else s
  | .expiraConexao =>
      if s.1.timerConexao.isSome then
        ({ s.1 with timerConexao := none }, vencerPorWo meuId "desconexao" s.2)
      else s

/-- A run of the participant's event loop. -/
def runEvents (meuId : String) (s : LState × GState) (es : List Event) :
    LState × GState :=
  es.foldl (stepEvent meuId) s

/-- Invariant of one participant's local state: every pending-timer id is
below the fresh-id counter, and a pending turn timer implies the last
observed turn payload named another (non-empty) participant. -/
def lInv (meuId : String) (l : LState) : Prop :=
  (∀ k, l.timerTurno = some k → k < l.nextId) ∧
  (∀ k, l.timerConexao = some k → k < l.nextId) ∧
  (l.timerTurno.isSome → ∃ d, l.lastTurn = some d ∧ d ≠ meuId ∧ d ≠ "")

/-- A concrete local state of `player1` with a pending turn timer (id 0),
reached from `initL` by observing turn = `player2`. -/
def lPendente : LState :=
  { initL with timerTurno := some 0, lastTurn := some "player2", nextId := 1 }

/-! ## First-mover election (`iniciar` / `_definir_primeiro_jogador`) -/

/-- `iniciar` checks `/connect4/vez` is empty and then contends in the
election; the election primitive is external (kazoo's `Election`), and per
the coordination-service contract it designates exactly one of the two
contending candidates as leader and invokes only that candidate's
callback, `_definir_primeiro_jogador`, which writes the leader's own id to
`/connect4/vez`.  `elected` is the designated candidate. -/
def iniciarPrimeiroJogador (elected : String) (s : GState) :
    GState × List ZWrite :=
  if s.vez = "" then ({ s with vez := elected }, [.vez elected])
  else (s, [])

/-! ## CLI identity prompts (`__main__` of both variants) -/

/-- What a process run does with the identity typed at the prompt. -/
inductive MainOutcome where
  | jogador (id : String)
  | espectador
  | exitCode (n : Nat)
deriving DecidableEq

/-- Python's `c.lower()` on one character (ASCII case mapping, which covers
every identity the prompt compares against). -/
def lowerChar (c : Char) : Char :=
  if 'A' ≤ c ∧ c ≤ 'Z' then Char.ofNat (c.toNat + 32) else c

/-- Whitespace removed by Python's `str.strip`. -/
def isPySpace (c : Char) : Bool :=
  c == ' ' || c == '\t' || c == '\n' || c == '\r'

/-- Python's `raw.strip()`: drop whitespace from both ends. -/
def stripBoth (l : List Char) : List Char :=
  ((l.dropWhile isPySpace).reverse.dropWhile isPySpace).reverse

/-- `input(...).strip().lower()` as `src/Connect-4.py` applies it. -/
def normalizeId (s : String) : String :=
  String.mk ((stripBoth s.data).map lowerChar)

/-- `__main__` of `src/Connect-4.py`: normalize the input; `player1` and
`player2` start player mode, `espectador` starts spectator mode, anything
else prints and calls `sys.exit(1)` (SystemExit is not caught by the
`except Exception` clause, so the process exits with code 1). -/
def mainConnect4 (rawInput : String) : MainOutcome :=
  let meuId := normalizeId rawInput
  if meuId = "player1" ∨ meuId = "player2" then .jogador meuId
  else if meuId = "espectador" then .espectador
  else .exitCode 1

/-- `__main__` of `src/src/connect4.py`: the raw input (no normalization)
must be exactly `player1` or `player2`; anything else raises `ValueError`,
which the `except Exception` clause catches and prints, after which the
process falls off the end of the script and exits with code 0. -/
def mainSrc (playerId : String) : MainOutcome :=
  if playerId = "player1" ∨ playerId = "player2" then .jogador playerId
  else .exitCode 0

/-- The initial shared state: empty board, empty `vez`, `vencedor` and
`motivo_vitoria` (the state `_limpar_para_novo_jogo` establishes). -/
def initG : GState := { tab := emptyBoard, vez := "", vencedor := "", motivo := "" }

/-- A board with three `player2` pieces stacked in column 0 (rows 5,4,3). -/
def boardP2Col0 : Board :=
  dropSeq emptyBoard [(0, "player2"), (0, "player2"), (0, "player2")]

/-- A board with three `player1` pieces stacked in column 0. -/
def boardP1Col0 : Board :=
  dropSeq emptyBoard [(0, "player1"), (0, "player1"), (0, "player1")]

end Connect4

open Connect4

/-! ## C7 -/

/-- C7: From the empty board, after three `player1` drops into column 3 the
four-in-a-row check (both variants' implementations) returns false; after
the fourth drop into column 3 it returns true. -/
theorem c7_vertical_four_example :
    verificarSeGanhei "player1"
      (dropSeq emptyBoard [(3, "player1"), (3, "player1"), (3, "player1")]) = false ∧
    verificarSeGanhei "player1"
      (dropSeq emptyBoard [(3, "player1"), (3, "player1"), (3, "player1"), (3, "player1")]) = true ∧
    check_winner "player1"
      (dropSeq emptyBoard [(3, "player1"), (3, "player1"), (3, "player1")]) 3 3 = false ∧
    check_winner "player1"
      (dropSeq emptyBoard [(3, "player1"), (3, "player1"), (3, "player1"), (3, "player1")]) 2 3 = true := by
  decide

/-! ## C9 -/

/-- C9: `check_winner(row, col)` of `src/src/connect4.py` is independent of
its `row` and `col` arguments: for every board and every two pairs of
in-range arguments it returns the same answer. -/
theorem c9_check_winner_ignores_args (b : Board) (p : String)
    (r1 c1 r2 c2 : Nat) (_hr1 : r1 < 6) (_hc1 : c1 < 7) (_hr2 : r2 < 6)
    (_hc2 : c2 < 7) :
    check_winner p b r1 c1 = check_winner p b r2 c2 := rfl

theorem c9_check_winner_ignores_args_witness :
    check_winner "player1" boardP1Col0 0 0 = check_winner "player1" boardP1Col0 5 6 :=
  c9_check_winner_ignores_args boardP1Col0 "player1" 0 0 5 6
    (by decide) (by decide) (by decide) (by decide)

/-! ## C1 -/

/-- C1 (code bug): the winner entry is not write-once.  Concrete failing
run: `player2` has three pieces in column 0 and is mid-move; `player1`'s
forfeiture timer fires first and records `vencedor = "player1"` (reason
`tempo`); `player2`'s winning-move path then writes `vencedor`
unconditionally, overwriting the non-empty entry with `"player2"` — the
second write is not a no-op. -/
theorem c1_winner_write_not_once :
    (vencerPorWo "player1" "tempo" { initG with tab := boardP2Col0, vez := "player2" }).vencedor
        = "player1" ∧
    "player1" ≠ "" ∧
    (fazerMinhaJogada "player2" 0
        (vencerPorWo "player1" "tempo" { initG with tab := boardP2Col0, vez := "player2" })).vencedor
        = "player2" := by
  decide

/-! ## C2 -/

/-- C2 counterexample: the claim fails on `src/Connect-4.py`, whose move
path `_fazer_minha_jogada` acquires no move lock and never re-reads `vez`:
with the turn entry naming `player2`, a `player1` move still mutates the
board (and hands the turn on), so the claimed unchanged-state guarantee
does not hold for every move. -/
theorem c2_no_revalidation_cex :
    ({ initG with vez := "player2" } : GState).vez ≠ "player1" ∧
    (fazerMinhaJogada "player1" 0 { initG with vez := "player2" }).tab 5 0
        = some "player1" ∧
    ({ initG with vez := "player2" } : GState).tab 5 0 = none := by
  decide

/-- C2 (amended): in `src/src/connect4.py`, `make_move` runs under
`move_lock` and re-validates under it that `turn` still equals the mover's
identity; when that fails it returns with board, turn and winner all
unchanged and performs no znode write.  (`src/Connect-4.py`'s move path has
no such lock or re-validation, per the counterexample.) -/
theorem c2_make_move_revalidates (playerId : String) (col : Nat) (s : GState)
    (h : s.vez ≠ playerId) :
    make_move playerId col s = s ∧ make_moveTrace playerId col s = [] := by
  constructor
  · simp [make_move, h]
  · simp [make_moveTrace, h]

theorem c2_make_move_revalidates_witness :
    make_move "player1" 0 { initG with vez := "player2" } = { initG with vez := "player2" } ∧
    make_moveTrace "player1" 0 { initG with vez := "player2" } = [] :=
  c2_make_move_revalidates "player1" 0 { initG with vez := "player2" } (by decide)

/-! ## C5 -/

/-- C5: when the registry has both players and `vez` is empty, the election
designates exactly one of the two candidates; only that candidate's
callback runs and it writes its own identity to `vez`, so `vez` equals that
single identity, written exactly once — never both identities. -/
theorem c5_first_mover_election (s : GState) (elected : String)
    (hvez : s.vez = "")
    (helected : elected = "player1" ∨ elected = "player2") :
    (iniciarPrimeiroJogador elected s).1.vez = elected ∧
    (iniciarPrimeiroJogador elected s).2 = [ZWrite.vez elected] ∧
    ((iniciarPrimeiroJogador elected s).2.countP (·.isVez)) = 1 := by
  rcases helected with h | h <;>
    simp [iniciarPrimeiroJogador, hvez, h, ZWrite.isVez, List.countP, List.countP.go]

theorem c5_first_mover_election_witness :
    (iniciarPrimeiroJogador "player1" initG).1.vez = "player1" ∧
    (iniciarPrimeiroJogador "player1" initG).2 = [ZWrite.vez "player1"] ∧
    ((iniciarPrimeiroJogador "player1" initG).2.countP (·.isVez)) = 1 :=
  c5_first_mover_election initG "player1" rfl (Or.inl rfl)

/-! ## C8 -/

/-- C8 counterexample: in `src/src/connect4.py` the identity `espectador`
is not accepted, and the rejection exits with code 0 (the `ValueError` is
caught by `except Exception` and the process ends normally); moreover
`src/Connect-4.py` accepts the input `"PLAYER1"`, a string other than the
three listed identities, because it lowercases the input. -/
theorem c8_identity_prompt_cex :
    mainSrc "espectador" = .exitCode 0 ∧
    mainSrc "foo" = .exitCode 0 ∧
    mainConnect4 "PLAYER1" = .jogador "player1" ∧
    ("PLAYER1" : String) ≠ "player1" ∧ ("PLAYER1" : String) ≠ "player2" ∧
    ("PLAYER1" : String) ≠ "espectador" := by
  decide

/-- C8 (amended): `src/Connect-4.py`'s prompt accepts exactly the inputs
whose stripped, lowercased form is `player1`, `player2` or `espectador` and
terminates with exit code 1 on every other input; `src/src/connect4.py`'s
prompt accepts exactly the verbatim strings `player1` and `player2` and on
every other input prints the caught error and terminates with exit code 0. -/
theorem c8_identity_prompt_amended (s : String) :
    (mainConnect4 s = .exitCode 1 ↔
      normalizeId s ≠ "player1" ∧ normalizeId s ≠ "player2" ∧
      normalizeId s ≠ "espectador") ∧
    (mainSrc s = .jogador s ↔ (s = "player1" ∨ s = "player2")) ∧
    (mainSrc s = .exitCode 0 ↔ ¬(s = "player1" ∨ s = "player2")) := by
  refine ⟨?_, ?_, ?_⟩
  · by_cases h1 : normalizeId s = "player1"
    · simp [mainConnect4, h1]
    · by_cases h2 : normalizeId s = "player2"
      · simp [mainConnect4, h1, h2]
      · by_cases h3 : normalizeId s = "espectador"
        · simp [mainConnect4, h1, h2, h3]
        · simp [mainConnect4, h1, h2, h3]
  · by_cases h : s = "player1" ∨ s = "player2"
    · simp [mainSrc, h]
    · simp [mainSrc, h]
  · by_cases h : s = "player1" ∨ s = "player2"
    · simp [mainSrc, h]
    · simp [mainSrc, h]

theorem c8_identity_prompt_amended_witness :
    (mainConnect4 "foo" = .exitCode 1 ↔
      normalizeId "foo" ≠ "player1" ∧ normalizeId "foo" ≠ "player2" ∧
      normalizeId "foo" ≠ "espectador") ∧
    (mainSrc "foo" = .jogador "foo" ↔ ("foo" : String) = "player1" ∨ ("foo" : String) = "player2") ∧
    (mainSrc "foo" = .exitCode 0 ↔ ¬(("foo" : String) = "player1" ∨ ("foo" : String) = "player2")) :=
  c8_identity_prompt_amended "foo"

/-! ## C3 -/

/-- C3 counterexample: in `src/src/connect4.py` a winning move writes
`winner` but no outcome reason — that variant has no reason znode at all —
so the claimed "outcome (winner = p, reason = four-in-a-row)" write does
not happen on every move.  Concrete input: `player1` (three pieces already
in column 0, turn = `player1`) drops a fourth piece into column 0. -/
theorem c3_move_reason_cex :
    (make_moveTrace "player1" 0 { initG with tab := boardP1Col0, vez := "player1" }).any
        (·.isVenc) = true ∧
    (make_moveTrace "player1" 0 { initG with tab := boardP1Col0, vez := "player1" }).any
        (·.isMotivo) = false := by
  decide

/-- C3 (amended): on every move, in both variants, the board is persisted
first; if the four-in-a-row check succeeds the winner (and, in
`src/Connect-4.py` only, the reason `"vitoria"`) is written and `turn` is
not; otherwise the other participant's identity is written to `turn` and
the winner is not written.  `src/src/connect4.py` never writes a reason. -/
theorem c3_move_write_order :
    (∀ meuId col s b' r, dropPiece s.tab col meuId = some (b', r) →
      (fazerMinhaJogadaTrace meuId col s).head? = some (ZWrite.tab b') ∧
      (verificarSeGanhei meuId b' = true →
        fazerMinhaJogadaTrace meuId col s
          = [ZWrite.tab b', ZWrite.motivo "vitoria", ZWrite.vencedor meuId] ∧
        (fazerMinhaJogadaTrace meuId col s).any (·.isVez) = false) ∧
      (verificarSeGanhei meuId b' = false →
        fazerMinhaJogadaTrace meuId col s
          = [ZWrite.tab b', ZWrite.vez (proximo meuId)] ∧
        (fazerMinhaJogadaTrace meuId col s).any (·.isVenc) = false)) ∧
    (∀ playerId col s b' r, s.vez = playerId →
      dropPiece s.tab col playerId = some (b', r) →
      (make_moveTrace playerId col s).head? = some (ZWrite.tab b') ∧
      (check_winner playerId b' r col = true →
        make_moveTrace playerId col s = [ZWrite.tab b', ZWrite.vencedor playerId] ∧
        (make_moveTrace playerId col s).any (·.isVez) = false ∧
        (make_moveTrace playerId col s).any (·.isMotivo) = false) ∧
      (check_winner playerId b' r col = false →
        make_moveTrace playerId col s = [ZWrite.tab b', ZWrite.vez (proximo playerId)] ∧
        (make_moveTrace playerId col s).any (·.isVenc) = false)) := by
  constructor
  · intro meuId col s b' r hdrop
    refine ⟨?_, ?_, ?_⟩
    · unfold fazerMinhaJogadaTrace
      rw [hdrop]
      by_cases hwin : verificarSeGanhei meuId b' = true <;>
        simp [hwin]
    · intro hwin
      unfold fazerMinhaJogadaTrace
      rw [hdrop]
      simp [hwin, ZWrite.isVez, List.any]
    · intro hwin
      unfold fazerMinhaJogadaTrace
      rw [hdrop]
      simp [hwin, ZWrite.isVenc, List.any]
  · intro playerId col s b' r hvez hdrop
    refine ⟨?_, ?_, ?_⟩
    · unfold make_moveTrace
      rw [if_neg (by simp [hvez]), hdrop]
      by_cases hwin : check_winner playerId b' r col = true <;>
        simp [hwin]
    · intro hwin
      unfold make_moveTrace
      rw [if_neg (by simp [hvez]), hdrop]
      simp [hwin, ZWrite.isVez, ZWrite.isMotivo, List.any]
    · intro hwin
      unfold make_moveTrace
      rw [if_neg (by simp [hvez]), hdrop]
      simp [hwin, ZWrite.isVenc, List.any]

theorem c3_move_write_order_witness :
    (fazerMinhaJogadaTrace "player1" 0 initG).head?
      = some (ZWrite.tab (place emptyBoard 5 0 "player1")) ∧
    (verificarSeGanhei "player1" (place emptyBoard 5 0 "player1") = false →
      fazerMinhaJogadaTrace "player1" 0 initG
        = [ZWrite.tab (place emptyBoard 5 0 "player1"), ZWrite.vez (proximo "player1")] ∧
      (fazerMinhaJogadaTrace "player1" 0 initG).any (·.isVenc) = false) :=
  ⟨(c3_move_write_order.1 "player1" 0 initG (place emptyBoard 5 0 "player1") 5 rfl).1,
   (c3_move_write_order.1 "player1" 0 initG (place emptyBoard 5 0 "player1") 5 rfl).2.2⟩

/-! ## C10 -/

/-- C10 counterexample: not every write of `/connect4/vencedor` is
immediately preceded by a write of `/connect4/motivo_vitoria`:
`_limpar_para_novo_jogo` writes `vencedor` as its very first `zk.set`, with
no reason write before it. -/
theorem c10_winner_reason_order_cex :
    ¬ (∀ (t : List ZWrite) (i : Nat) (w : ZWrite), progTrace t →
        t.get? i = some w → w.isVenc = true →
        ∃ j m, i = j + 1 ∧ t.get? j = some (ZWrite.motivo m)) := by
  intro h
  obtain ⟨j, m, hj, -⟩ :=
    h limparTrace 0 (ZWrite.vencedor "") (Or.inl rfl) rfl rfl
  omega

/-- C10 (amended): every code path of `src/Connect-4.py` that writes a
non-empty value to `/connect4/vencedor` writes a non-empty reason to
`/connect4/motivo_vitoria` immediately before it in program order; the
reset path `_limpar_para_novo_jogo` writes `vencedor` (to empty) with no
reason write before it. -/
theorem c10_winner_reason_order (t : List ZWrite) (i : Nat) (w : ZWrite)
    (ht : progTrace t) (hi : t.get? i = some w) (hw : w.isVencNE = true) :
    ∃ j m, i = j + 1 ∧ t.get? j = some (ZWrite.motivo m) ∧ m ≠ "" := by
  rcases ht with h | ⟨id, motivo, s, hm, h⟩ | ⟨id, col, s, h⟩ | ⟨id, h⟩ <;> subst h
  · rcases i with _ | _ | _ | _ | i <;>
      simp [limparTrace] at hi <;> subst hi <;>
      simp [ZWrite.isVencNE] at hw
  · by_cases hv : s.vencedor = ""
    · simp only [vencerPorWoTrace, if_pos hv] at hi
      rcases i with _ | _ | i
      · simp at hi; subst hi; simp [ZWrite.isVencNE] at hw
      · refine ⟨0, motivo, rfl, ?_, ?_⟩
        · simp [vencerPorWoTrace, hv]
        · rcases hm with hm | hm <;> subst hm <;> decide
      · simp at hi
    · simp [vencerPorWoTrace, hv] at hi
  · unfold fazerMinhaJogadaTrace at hi
    rcases hdrop : dropPiece s.tab col id with - | ⟨b', r⟩
    · rw [hdrop] at hi; simp at hi
    · rw [hdrop] at hi
      by_cases hwin : verificarSeGanhei id b' = true
      · simp only [hwin, if_true] at hi
        rcases i with _ | _ | _ | i
        · simp at hi; subst hi; simp [ZWrite.isVencNE] at hw
        · simp at hi; subst hi; simp [ZWrite.isVencNE] at hw
        · refine ⟨1, "vitoria", rfl, ?_, by decide⟩
          unfold fazerMinhaJogadaTrace
          rw [hdrop]
          simp only [hwin, if_true]
          rfl
        · simp at hi
      · simp only [hwin, if_false, Bool.false_eq_true] at hi
        rcases i with _ | _ | i
        · simp at hi; subst hi; simp [ZWrite.isVencNE] at hw
        · simp at hi; subst hi; simp [ZWrite.isVencNE] at hw
        · simp at hi
  · rcases i with _ | i
    · simp [definirPrimeiroJogadorTrace] at hi; subst hi
      simp [ZWrite.isVencNE] at hw
    · simp [definirPrimeiroJogadorTrace] at hi

theorem c10_winner_reason_order_witness :
    ∃ j m, 1 = j + 1 ∧
      (vencerPorWoTrace "player1" "tempo" initG).get? j = some (ZWrite.motivo m) ∧
      m ≠ "" :=
  c10_winner_reason_order (vencerPorWoTrace "player1" "tempo" initG) 1
    (ZWrite.vencedor "player1")
    (Or.inr (Or.inl ⟨"player1", "tempo", initG, Or.inl rfl, rfl⟩))
    rfl (by decide)


/-! ## C6 -/

/-- A `Bool`-level helper: an option whose `isNone` test failed is `isSome`. -/
theorem isSome_of_not_isNone {o : Option String} (h : ¬ o.isNone = true) :
    o.isSome := by
  cases o <;> simp_all

/-- The bottom-up scan `for linha in range(5, -1, -1)` stops at an empty
cell all of whose lower cells in the column are occupied. -/
theorem lowestEmptyRow_spec (b : Board) (c r : Nat)
    (h : lowestEmptyRow b c = some r) :
    b r c = none ∧ ∀ r', r < r' → r' ≤ 5 → (b r' c).isSome := by
  unfold lowestEmptyRow at h
  split_ifs at h with h5 h4 h3 h2 h1 h0
  all_goals first
    | exact Option.noConfusion h
    | (injection h with h; subst h
       refine ⟨Option.isNone_iff_eq_none.mp (by assumption), ?_⟩
       intro r' hlt hle
       interval_cases r' <;>
         first
           | exact isSome_of_not_isNone h5
           | exact isSome_of_not_isNone h4
           | exact isSome_of_not_isNone h3
           | exact isSome_of_not_isNone h2
           | exact isSome_of_not_isNone h1)

/-- The bottom-up scan returns a row index at most 5. -/
theorem lowestEmptyRow_le (b : Board) (c r : Nat)
    (h : lowestEmptyRow b c = some r) : r ≤ 5 := by
  unfold lowestEmptyRow at h
  split_ifs at h <;> first
    | exact Option.noConfusion h
    | (injection h with h; omega)

/-- Anatomy of a successful drop: the top cell was empty, the row is the
bottom-up scan's answer, and the new board is a single-cell update. -/
theorem dropPiece_eq_some (b : Board) (c : Nat) (p : String) (b' : Board)
    (r : Nat) (h : dropPiece b c p = some (b', r)) :
    (b 0 c).isNone = true ∧ lowestEmptyRow b c = some r ∧
    b' = place b r c p := by
  unfold dropPiece at h
  split_ifs at h with htop
  · rcases hrow : lowestEmptyRow b c with - | r0 <;> rw [hrow] at h
    · exact Option.noConfusion h
    · simp only [Option.map_some'] at h
      injection h with h
      injection h with hb hr
      refine ⟨htop, ?_, ?_⟩
      · rw [hr]
      · rw [← hb, hr]

/-- C6: the drop of both move paths fails when the column has no empty
cell; a successful drop places the piece at the lowest (bottom-most) empty
row of the chosen column and changes no other cell; and after any sequence
of drops from the empty board every column's filled cells are contiguous
from the bottom (no gap below a filled cell). -/
theorem c6_drop_gravity :
    (∀ b c p, (∀ r, r < 6 → (b r c).isSome) → dropPiece b c p = none) ∧
    (∀ b c p b' r, dropPiece b c p = some (b', r) →
      b r c = none ∧ (∀ r', r' < 6 → b r' c = none → r' ≤ r) ∧
      b' r c = some p ∧
      (∀ r' c', ¬(r' = r ∧ c' = c) → b' r' c' = b r' c')) ∧
    (∀ ms, gravity (dropSeq emptyBoard ms)) := by
  have hsucc : ∀ b c p b' r, dropPiece b c p = some (b', r) →
      b r c = none ∧ (∀ r', r' < 6 → b r' c = none → r' ≤ r) ∧
      b' r c = some p ∧
      (∀ r' c', ¬(r' = r ∧ c' = c) → b' r' c' = b r' c') := by
    intro b c p b' r h
    obtain ⟨-, hrow, hb'⟩ := dropPiece_eq_some b c p b' r h
    obtain ⟨hempty, hbelow⟩ := lowestEmptyRow_spec b c r hrow
    refine ⟨hempty, ?_, ?_, ?_⟩
    · intro r' hr6 hnone
      by_contra hgt
      push_neg at hgt
      have hsome := hbelow r' hgt (by omega)
      rw [hnone] at hsome
      exact Bool.noConfusion hsome
    · subst hb'; simp [place]
    · subst hb'
      intro r' c' hne
      unfold place
      by_cases hr : r' = r
      · subst hr
        have hc : ¬ c' = c := fun hc => hne ⟨rfl, hc⟩
        simp [hc]
      · simp [hr]
  refine ⟨?_, hsucc, ?_⟩
  · intro b c p h
    have h0 := h 0 (by omega)
    rcases hx : b 0 c with - | v
    · rw [hx] at h0; exact Bool.noConfusion h0
    · simp [dropPiece, hx]
  · have hstep : ∀ b m, gravity b → gravity (applyDrop b m) := by
      intro b m hg
      rcases hd : dropPiece b m.1 m.2 with - | ⟨b', r⟩
      · have ha : applyDrop b m = b := by unfold applyDrop; rw [hd]
        rw [ha]; exact hg
      · have ha : applyDrop b m = b' := by unfold applyDrop; rw [hd]
        rw [ha]
        obtain ⟨-, hrow, -⟩ := dropPiece_eq_some b m.1 m.2 b' r hd
        obtain ⟨-, hbelow⟩ := lowestEmptyRow_spec b m.1 r hrow
        obtain ⟨-, -, hplaced, hframe⟩ := hsucc b m.1 m.2 b' r hd
        intro r0 c0 hr0 hfill
        by_cases hc : c0 = m.1
        · subst hc
          by_cases h1 : r0 = r
          · subst h1
            have hframe1 : b' (r0 + 1) m.1 = b (r0 + 1) m.1 :=
              hframe (r0 + 1) m.1 (by omega)
            rw [hframe1]
            exact hbelow (r0 + 1) (by omega)
              (by have := lowestEmptyRow_le b m.1 r0 hrow; omega)
          · by_cases h2 : r0 + 1 = r
            · rw [h2, hplaced]; rfl
            · have hf0 : b' r0 m.1 = b r0 m.1 :=
                hframe r0 m.1 (fun hx => h1 hx.1)
              have hf1 : b' (r0 + 1) m.1 = b (r0 + 1) m.1 :=
                hframe (r0 + 1) m.1 (fun hx => h2 hx.1)
              rw [hf0] at hfill
              rw [hf1]
              exact hg r0 m.1 hr0 hfill
        · have hf0 : b' r0 c0 = b r0 c0 :=
            hframe r0 c0 (fun hx => hc hx.2)
          have hf1 : b' (r0 + 1) c0 = b (r0 + 1) c0 :=
            hframe (r0 + 1) c0 (fun hx => hc hx.2)
          rw [hf0] at hfill
          rw [hf1]
          exact hg r0 c0 hr0 hfill
    have hfold : ∀ (ms : List (Nat × String)) (b : Board),
        gravity b → gravity (ms.foldl applyDrop b) := by
      intro ms
      induction ms with
      | nil => intro b hb; exact hb
      | cons m ms ih => intro b hb; exact ih (applyDrop b m) (hstep b m hb)
    intro ms
    have hge : gravity emptyBoard := by
      intro r c hr hfill
      exact Bool.noConfusion hfill
    exact hfold ms emptyBoard hge

theorem c6_drop_gravity_witness :
    dropPiece (fun _ _ => some "x" : Board) 0 "player1" = none ∧
    (emptyBoard 5 0 = none ∧
      (∀ r', r' < 6 → emptyBoard r' 0 = none → r' ≤ 5) ∧
      (place emptyBoard 5 0 "player1") 5 0 = some "player1" ∧
      (∀ r' c', ¬(r' = 5 ∧ c' = 0) →
        (place emptyBoard 5 0 "player1") r' c' = emptyBoard r' c')) ∧
    gravity (dropSeq emptyBoard [(3, "player1"), (3, "player2")]) :=
  ⟨c6_drop_gravity.1 (fun _ _ => some "x") 0 "player1" (by decide),
   c6_drop_gravity.2.1 emptyBoard 0 "player1" (place emptyBoard 5 0 "player1") 5 rfl,
   c6_drop_gravity.2.2 [(3, "player1"), (3, "player2")]⟩

/-! ## C4 -/

/-- The local-state invariant holds at startup. -/
theorem lInv_init (meuId : String) : lInv meuId initL := by
  unfold lInv initL
  refine ⟨?_, ?_, ?_⟩ <;> simp

/-- Every observable event preserves the local-state invariant. -/
theorem lInv_step (meuId : String) (s : LState × GState) (e : Event)
    (h : lInv meuId s.1) : lInv meuId (stepEvent meuId s e).1 := by
  obtain ⟨h1, h2, h3⟩ := h
  cases e with
  | turno d =>
      simp only [stepEvent]
      unfold observarTurno
      split_ifs with hg hd
      · exact ⟨h1, h2, h3⟩
      · unfold lInv
        refine ⟨?_, ?_, ?_⟩ <;> simp
        intro k hk
        exact h2 k hk
      · push_neg at hg
        unfold lInv
        refine ⟨?_, ?_, ?_⟩ <;> simp
        · intro k hk
          have := h2 k hk
          omega
        · exact ⟨hd, hg.2⟩
  | vencedorObs d =>
      simp only [stepEvent]
      unfold observarVencedor
      split_ifs with hg
      · unfold lInv
        refine ⟨?_, ?_, ?_⟩ <;> simp
      · exact ⟨h1, h2, h3⟩
  | jogadores n =>
      simp only [stepEvent]
      unfold observarJogadores
      split_ifs with hover hlow hback
      · exact ⟨h1, h2, h3⟩
      · unfold lInv
        refine ⟨?_, ?_, ?_⟩ <;> simp
      · unfold lInv
        refine ⟨?_, ?_, ?_⟩ <;> simp
        · intro k hk
          exact h1 k hk
        · intro hsome
          simpa using h3 hsome
      · exact ⟨h1, h2, h3⟩
  | expiraTurno =>
      simp only [stepEvent]
      split_ifs with hp
      · unfold lInv
        refine ⟨?_, ?_, ?_⟩ <;> simp
        intro k hk
        exact h2 k hk
      · exact ⟨h1, h2, h3⟩
  | expiraConexao =>
      simp only [stepEvent]
      split_ifs with hp
      · unfold lInv
        refine ⟨?_, ?_, ?_⟩ <;> simp
        · intro k hk
          exact h1 k hk
        · intro hsome
          simpa using h3 hsome
      · exact ⟨h1, h2, h3⟩

/-- The local-state invariant holds at every reachable state of the event
loop. -/
theorem lInv_run (meuId : String) (g : GState) (es : List Event) :
    lInv meuId (runEvents meuId (initL, g) es).1 := by
  have hgen : ∀ (es : List Event) (s : LState × GState), lInv meuId s.1 →
      lInv meuId (runEvents meuId s es).1 := by
    intro es
    induction es with
    | nil => intro s hs; exact hs
    | cons e es ih =>
        intro s hs
        exact ih (stepEvent meuId s e) (lInv_step meuId s e hs)
  exact hgen es (initL, g) (lInv_init meuId)

/-- C4 counterexample: the turn-timeout timer is not cancelled *only* on a
new turn value or a non-empty winner.  Concrete run for `player1`: after
observing turn = `player2` a timer (id 0) is pending; the registry-watch
event "player count dropped to 1" then cancels it (replacing it by the
disconnection-grace timer) although neither a turn value nor a winner was
observed; moreover an observed *empty* turn payload does not cancel the
pending timer (`_observar_turno` returns early on empty data). -/
theorem c4_turn_timer_cex :
    (runEvents "player1" (initL, initG) [Event.turno "player2"]).1.timerTurno
      = some 0 ∧
    (runEvents "player1" (initL, initG)
      [Event.turno "player2", Event.jogadores 1]).1.timerTurno = none ∧
    (runEvents "player1" (initL, initG)
      [Event.turno "player2", Event.turno ""]).1.timerTurno = some 0 ∧
    ¬ (∀ (l : LState) (e : Event), l.timerTurno = some 0 →
        (stepEvent "player1" (l, initG) e).1.timerTurno = none →
        (∃ d, (e = Event.turno d ∨ e = Event.vencedorObs d) ∧ d ≠ "") ∨
        e = Event.expiraTurno) := by
  refine ⟨by decide, by decide, by decide, ?_⟩
  intro h
  have h2 := h lPendente (Event.jogadores 1) rfl (by decide)
  rcases h2 with ⟨d, hd, -⟩ | h2
  · rcases hd with hd | hd <;> exact Event.noConfusion hd
  · exact Event.noConfusion h2

/-- C4 (amended): for every participant, (i) whenever the turn-timeout
timer is pending, the last observed turn payload named another, non-empty
participant — never the participant itself; (ii) the pending timer is
cancelled by observing a non-empty turn value or a non-empty winner, and
also by observing the registry drop below 2 with no grace timer running,
while an empty turn payload, an empty winner payload, a registry report of
≥ 2 players, and a registry drop with the grace timer already pending all
leave it pending; (iii) on expiry the timer runs `_vencer_por_wo('tempo')`,
which declares the participant itself the winner with reason `tempo` when
no winner is recorded yet and changes nothing otherwise. -/
theorem c4_turn_timer (meuId : String) :
    (∀ g es, (runEvents meuId (initL, g) es).1.timerTurno.isSome →
      ∃ d, (runEvents meuId (initL, g) es).1.lastTurn = some d ∧
        d ≠ meuId ∧ d ≠ "") ∧
    (∀ l d k, l.timerTurno = some k → k < l.nextId → ¬l.jogoAcabou = true →
      d ≠ "" →
      (observarTurno meuId d l).timerTurno ≠ some k ∧
      (observarVencedor d l).timerTurno = none) ∧
    (∀ l n k, l.timerTurno = some k → ¬l.jogoAcabou = true →
      (n < 2 ∧ l.timerConexao = none →
        (observarJogadores n l).timerTurno = none) ∧
      (2 ≤ n → (observarJogadores n l).timerTurno = some k) ∧
      (n < 2 ∧ l.timerConexao ≠ none →
        (observarJogadores n l).timerTurno = some k)) ∧
    (∀ l k, l.timerTurno = some k →
      (observarTurno meuId "" l).timerTurno = some k ∧
      (observarVencedor "" l).timerTurno = some k) ∧
    (∀ l g, l.timerTurno.isSome →
      stepEvent meuId (l, g) Event.expiraTurno
        = ({ l with timerTurno := none }, vencerPorWo meuId "tempo" g)) ∧
    (∀ g, g.vencedor = "" →
      (vencerPorWo meuId "tempo" g).vencedor = meuId ∧
      (vencerPorWo meuId "tempo" g).motivo = "tempo") ∧
    (∀ g, g.vencedor ≠ "" → vencerPorWo meuId "tempo" g = g) := by
  refine ⟨?_, ?_, ?_, ?_, ?_, ?_, ?_⟩
  · intro g es hsome
    exact (lInv_run meuId g es).2.2 hsome
  · intro l d k hk hfresh hover hd
    constructor
    · unfold observarTurno
      split_ifs with hg hself
      · simp at hg
        rcases hg with hg | hg
        · exact absurd hg hover
        · exact absurd hg hd
      · simp
      · simp
        omega
    · unfold observarVencedor
      split_ifs with hg
      · rfl
      · simp [hd] at hg
        exact absurd hg hover
  · intro l n k hk hover
    refine ⟨?_, ?_, ?_⟩
    · rintro ⟨hn, hcon⟩
      unfold observarJogadores
      rw [if_neg hover, if_pos ⟨hn, hcon⟩]
    · intro hn
      unfold observarJogadores
      rw [if_neg hover, if_neg (fun hx => by omega : ¬(n < 2 ∧ l.timerConexao = none))]
      split_ifs with h3
      · exact hk
      · exact hk
    · rintro ⟨hn, hcon⟩
      unfold observarJogadores
      rw [if_neg hover, if_neg (fun hx => hcon hx.2),
        if_neg (fun hx => absurd hx.1 (by omega))]
      exact hk
  · intro l k hk
    constructor
    · unfold observarTurno
      split_ifs with hg hself
      · exact hk
      · simp at hg
      · simp at hg
    · unfold observarVencedor
      split_ifs with hg
      · simp at hg
      · exact hk
  · intro l g hsome
    simp only [stepEvent, hsome]
    rfl
  · intro g hv
    unfold vencerPorWo
    rw [if_pos hv]
    exact ⟨rfl, rfl⟩
  · intro g hv
    unfold vencerPorWo
    rw [if_neg hv]

theorem c4_turn_timer_witness :
    (∃ d, (runEvents "player1" (initL, initG) [Event.turno "player2"]).1.lastTurn
        = some d ∧ d ≠ "player1" ∧ d ≠ "") ∧
    (observarTurno "player1" "player2" lPendente).timerTurno ≠ some 0 ∧
    (observarJogadores 1 lPendente).timerTurno = none ∧
    (observarTurno "player1" "" lPendente).timerTurno = some 0 ∧
    (vencerPorWo "player1" "tempo" initG).vencedor = "player1" ∧
    (vencerPorWo "player1" "tempo" { initG with vencedor := "player2" })
      = { initG with vencedor := "player2" } :=
  ⟨(c4_turn_timer "player1").1 initG [Event.turno "player2"] (by decide),
   ((c4_turn_timer "player1").2.1 lPendente
      "player2" 0 rfl (by decide) (by decide) (by decide)).1,
   ((c4_turn_timer "player1").2.2.1 lPendente
      1 0 rfl (by decide)).1 ⟨by decide, rfl⟩,
   ((c4_turn_timer "player1").2.2.2.1 lPendente 0 rfl).1,
   ((c4_turn_timer "player1").2.2.2.2.2.1 initG rfl).1,
   (c4_turn_timer "player1").2.2.2.2.2.2
      { initG with vencedor := "player2" } (by decide)⟩
